import Mathlib

/-!
Verification development for the local-agent-mlops repository.

The definitions below are a shallow embedding of the UI layer
(`apps/ui/src/components/*.jsx`) and of the memory-graph constructor.
Each React event handler is modelled as a pure function from the
component state and its environment (clock readings for `Date.now()`,
the outcome of the awaited HTTP call) to the resulting state together
with the list of HTTP requests issued and the alerts/toasts shown.
-/

namespace LocalAgentMlops

/-- A source returned inside a `ResearchAnswer` (`{id, url, title, ...}`). -/
structure Source where
  id : Nat
  url : String
  title : String
deriving DecidableEq

/-- Content of a chat message: either plain (markdown) text, or the JSX block
built in the web-search branch of `handleSend`, which renders the answer plus
the list of displayed sources. -/
inductive MsgContent where
  | text (s : String)
  | rendered (answer : String) (displayedSources : List Source)
deriving DecidableEq

/-- The sources a rendered chat message displays; plain text displays none. -/
def displayedSources : MsgContent → List Source
  | .text _ => []
  | .rendered _ l => l

/-- One entry of the `messages` state of `ChatInterface`. -/
structure Msg where
  id : Nat
  role : String
  content : MsgContent
  sourcesUsed : Nat
deriving DecidableEq

/-- The body of a POST to `/api/research`, with exactly the five fields built
in `handleSearch` (ResearchView.jsx) and `handleSend` (ChatInterface.jsx). -/
structure ResearchPayload where
  query : String
  max_iterations : Nat
  provider : String
  search_depth : String
  include_domains : List String
deriving DecidableEq

/-- A file chosen in the hidden file input of `ChatInterface`. -/
structure FileInput where
  name : String
  type : String
  size : Nat
deriving DecidableEq

/-- An HTTP request issued by the UI. -/
inductive Request where
  | upload (file : FileInput)
  | research (payload : ResearchPayload)
  | chat (message : String)
  | chatClear
  | memoryGraph
deriving DecidableEq

/-- Outcome of the awaited POST to `/api/upload`. -/
inductive UploadOutcome where
  | ok (chunks : Nat)
  | err (detail : String)
deriving DecidableEq

/-- Outcome of the awaited POST to `/api/research`; on failure the UI reads
`error.response?.data?.detail`, which may be absent. -/
inductive ResearchOutcome where
  | ok (answer : String) (sources : List Source)
  | err (detail : Option String)
deriving DecidableEq

/-- Outcome of the awaited POST to `/api/chat`. -/
inductive ChatOutcome where
  | ok (message : String) (sources_used : Nat)
  | err
deriving DecidableEq

/-- Outcome of the awaited POST to `/api/chat/clear`. -/
inductive ClearOutcome where
  | ok
  | err
deriving DecidableEq

/-- Result of running one `ChatInterface` handler to completion. -/
structure ChatStep where
  messages : List Msg
  requests : List Request
  alerts : List String
deriving DecidableEq

/-- `2.5 * 1024 * 1024`, the upload size limit checked in `handleFileChange`. -/
def uploadMaxSize : Nat := 2621440

/-- The temporary assistant message shown while a PDF is being ingested. -/
def ingestingContent (name : String) : MsgContent :=
  .text ("📄 Ingesting **" ++ name ++ "**... (This may take a moment using Vision LLM)")

/-- The assistant message shown after a successful ingestion. -/
def ingestedContent (name : String) (chunks : Nat) : MsgContent :=
  .text ("✅ Successfully ingested **" ++ name ++ "**.\n\nExtracted " ++ toString chunks ++ " chunks.")

/-- `handleFileChange` (ChatInterface.jsx lines 75-119): validates the chosen
file, then posts it to `/api/upload` and updates the temporary message on
success, or filters the message list by a fresh `Date.now()` on failure.
`t0` is the `Date.now()` read when the placeholder is created and `t1` the
`Date.now()` read inside the catch handler. -/
def handleFileChange (msgs : List Msg) (file : FileInput) (outcome : UploadOutcome)
    (t0 t1 : Nat) : ChatStep :=
  if file.type ≠ "application/pdf" then
    { messages := msgs, requests := [], alerts := ["Please upload a PDF file."] }
  else if uploadMaxSize < file.size then
    { messages := msgs, requests := [], alerts := ["File size exceeds 2.5MB limit."] }
  else
    let placeholder : Msg := ⟨t0, "assistant", ingestingContent file.name, 0⟩
    let added := msgs ++ [placeholder]
    match outcome with
    | .ok chunks =>
        { messages := added.map fun m =>
            if m.id = t0 then { m with content := ingestedContent file.name chunks } else m,
          requests := [.upload file],
          alerts := [] }
    | .err detail =>
        { messages := added.filter fun m => m.id != t1,
          requests := [.upload file],
          alerts := ["Error uploading file: " ++ detail] }

/-- The search settings kept as React state in both `ChatInterface` and
`ResearchView`: provider, depth and the high-authority-only checkbox. -/
structure SearchSettings where
  provider : String
  search_depth : String
  highAuthorityOnly : Bool
deriving DecidableEq

/-- Initial settings: provider tavily, depth basic, checkbox off. -/
def initialSettings : SearchSettings := ⟨"tavily", "basic", false⟩

/-- `include_domains` as built at submit time:
`highAuthorityOnly ? ["HIGH_AUTHORITY"] : []`. -/
def includeDomains (s : SearchSettings) : List String :=
  if s.highAuthorityOnly then ["HIGH_AUTHORITY"] else []

/-- The payload built in the web-search branch of `handleSend`
(ChatInterface.jsx lines 136-142): `max_iterations` is the literal 1. -/
def webChatPayload (input : String) (s : SearchSettings) : ResearchPayload :=
  { query := input, max_iterations := 1, provider := s.provider,
    search_depth := s.search_depth, include_domains := includeDomains s }

/-- The error content set on the placeholder when the research call of a
web-search chat turn rejects. -/
def searchErrorText : String := "Sorry, I encountered an error while searching."

/-- The error content appended when the memory-mode chat call rejects. -/
def chatErrorText : String := "Sorry, I encountered an error. Please try again."

/-- Web-search branch of `handleSend` (ChatInterface.jsx lines 130-176):
appends the user message (id `Date.now() = t`) and a placeholder (id `t + 1`),
posts to `/api/research`, then replaces the placeholder content with the
rendered answer showing `sources.slice(0, 3)`, or with an error text. -/
def handleSendWeb (msgs : List Msg) (input : String) (s : SearchSettings)
    (outcome : ResearchOutcome) (t : Nat) : ChatStep :=
  let userMsg : Msg := ⟨t, "user", .text input, 0⟩
  let added := msgs ++ [userMsg, ⟨t + 1, "assistant", .text ("Searching web..."), 0⟩]
  match outcome with
  | .ok answer sources =>
      { messages := added.map fun m =>
          if m.id = t + 1 then { m with content := .rendered answer (sources.take 3) } else m,
        requests := [.research (webChatPayload input s)],
        alerts := [] }
  | .err _ =>
      { messages := added.map fun m =>
          if m.id = t + 1 then { m with content := .text searchErrorText } else m,
        requests := [.research (webChatPayload input s)],
        alerts := [] }

/-- Memory-mode branch of `handleSend` (ChatInterface.jsx lines 177-197):
appends the user message (id `Date.now() = t`), posts to `/api/chat`, then
appends the assistant reply or an error message with id `Date.now() + 1`
read when the response arrives (`t2 + 1`). -/
def handleSendMemory (msgs : List Msg) (input : String) (outcome : ChatOutcome)
    (t t2 : Nat) : ChatStep :=
  let added := msgs ++ [⟨t, "user", .text input, 0⟩]
  match outcome with
  | .ok message su =>
      { messages := added ++ [⟨t2 + 1, "assistant", .text message, su⟩],
        requests := [.chat input],
        alerts := [] }
  | .err =>
      { messages := added ++ [⟨t2 + 1, "assistant", .text chatErrorText, 0⟩],
        requests := [.chat input],
        alerts := [] }

/-- JS falsiness of `input.trim()`: a string trims to the empty string exactly
when every one of its characters is whitespace. -/
def isBlank (s : String) : Bool := s.toList.all Char.isWhitespace

/-- `handleSend` (ChatInterface.jsx lines 121-198): no-op when the trimmed
input is empty or a turn is already loading, else dispatches on `useWebSearch`.
The unused outcome argument of the branch not taken is ignored. -/
def handleSend (msgs : List Msg) (input : String) (loading useWebSearch : Bool)
    (s : SearchSettings) (webOut : ResearchOutcome) (chatOut : ChatOutcome)
    (t t2 : Nat) : ChatStep :=
  if isBlank input || loading then
    { messages := msgs, requests := [], alerts := [] }
  else if useWebSearch then
    handleSendWeb msgs input s webOut t
  else
    handleSendMemory msgs input chatOut t t2

/-- The greeting after clearing the history. -/
def clearGreetingText : String := "Chat history cleared. How can I help you?"

/-- `handleClear` (ChatInterface.jsx lines 200-209): posts to `/api/chat/clear`
and on success replaces the history with a single assistant greeting whose id
is the `Date.now()` reading `t`; on failure it only logs. -/
def handleClear (msgs : List Msg) (outcome : ClearOutcome) (t : Nat) : ChatStep :=
  match outcome with
  | .ok =>
      { messages := [⟨t, "assistant", .text clearGreetingText, 0⟩],
        requests := [.chatClear],
        alerts := [] }
  | .err =>
      { messages := msgs, requests := [.chatClear], alerts := [] }

/-- One chat operation other than clear, with its environment: the clock
readings and the outcome of the awaited HTTP call. -/
inductive ChatOp where
  | send (input : String) (loading useWebSearch : Bool) (s : SearchSettings)
      (webOut : ResearchOutcome) (chatOut : ChatOutcome) (t t2 : Nat)
  | fileChange (file : FileInput) (outcome : UploadOutcome) (t0 t1 : Nat)
deriving DecidableEq

/-- Running one chat operation against the current message list. -/
def applyChatOp (msgs : List Msg) : ChatOp → List Msg
  | .send input loading useWeb s wo co t t2 =>
      (handleSend msgs input loading useWeb s wo co t t2).messages
  | .fileChange file outcome t0 t1 =>
      (handleFileChange msgs file outcome t0 t1).messages

/-- Freshness of the clock readings of an operation with respect to the
current history: the `Date.now()` read in the upload catch handler differs
from the placeholder creation time and from every existing message id.
All other operations need no assumption. -/
def opFresh (msgs : List Msg) : ChatOp → Bool
  | .fileChange _ (.err _) t0 t1 => (t0 != t1) && msgs.all fun m => m.id != t1
  | _ => true

/-- Five concrete sources, used to exercise the three-source display cap. -/
def wSources : List Source :=
  [⟨1, "u1", "s1"⟩, ⟨2, "u2", "s2"⟩, ⟨3, "u3", "s3"⟩, ⟨4, "u4", "s4"⟩, ⟨5, "u5", "s5"⟩]

/-- The `ResearchAnswer` returned by `/api/research`. -/
structure ResearchAnswer where
  answer : String
  sources : List Source
deriving DecidableEq

/-- The payload built in `handleSearch` (ResearchView.jsx lines 35-41):
`max_iterations` is the literal 3. -/
def researchViewPayload (query : String) (s : SearchSettings) : ResearchPayload :=
  { query := query, max_iterations := 3, provider := s.provider,
    search_depth := s.search_depth, include_domains := includeDomains s }

/-- Kind of a toast notification. -/
inductive ToastKind where
  | success
  | error
deriving DecidableEq

/-- One toast notification as raised through `useToast`. -/
structure ToastMsg where
  kind : ToastKind
  message : String
  title : String
deriving DecidableEq

/-- Result of running `handleSearch` of `ResearchView` to completion. -/
structure SearchStep where
  result : Option ResearchAnswer
  requests : List Request
  toasts : List ToastMsg
deriving DecidableEq

/-- Fallback toast text when the rejected research call carries no detail. -/
def researchFailedText : String := "Research failed. Please try again."

/-- `handleSearch` (ResearchView.jsx lines 28-51): no-op on blank query;
otherwise clears the result, posts to `/api/research`, and either stores the
answer with a success toast or leaves the result cleared with an error
toast. `prev` is the `result` state before the submit. -/
def handleSearch (prev : Option ResearchAnswer) (query : String)
    (s : SearchSettings) (outcome : ResearchOutcome) : SearchStep :=
  if isBlank query then { result := prev, requests := [], toasts := [] }
  else
    match outcome with
    | .ok answer sources =>
        { result := some ⟨answer, sources⟩,
          requests := [.research (researchViewPayload query s)],
          toasts := [⟨.success, "Research completed successfully!", "Success"⟩] }
    | .err detail =>
        { result := none,
          requests := [.research (researchViewPayload query s)],
          toasts := [⟨.error, detail.getD researchFailedText, "Error"⟩] }

/-- The sources `ResearchResult` renders: none when `result` is null. -/
def renderedSources : Option ResearchAnswer → List Source
  | none => []
  | some r => r.sources

/-- A user interaction with the search settings controls. -/
inductive SettingsEvent where
  | setProvider (p : String)
  | setSearchDepth (d : String)
  | setHighAuthorityOnly (b : Bool)
deriving DecidableEq

/-- The depth select is disabled exactly when the provider is duckduckgo, in
both ResearchView.jsx (line 114) and ChatInterface.jsx (line 268). -/
def depthSelectDisabled (s : SearchSettings) : Bool := s.provider == "duckduckgo"

/-- Effect of one settings interaction: a disabled select fires no change
event, so the depth can only change while the provider supports it; nothing
ever resets `search_depth` when the provider changes. -/
def applySettingsEvent (s : SearchSettings) : SettingsEvent → SearchSettings
  | .setProvider p => { s with provider := p }
  | .setSearchDepth d =>
      if depthSelectDisabled s then s else { s with search_depth := d }
  | .setHighAuthorityOnly b => { s with highAuthorityOnly := b }

/-- Folding a sequence of settings interactions from a starting state. -/
def applySettingsEvents (s : SearchSettings) (es : List SettingsEvent) : SearchSettings :=
  es.foldl applySettingsEvent s

/-- A node of the memory-graph payload: `group` is 1 for graph-store origin
and 2 for vector-store origin. -/
structure GraphNode where
  id : String
  name : String
  content : String
  group : Nat
deriving DecidableEq

/-- The two edge kinds of the memory graph. -/
inductive EdgeType where
  | same_query
  | same_domain
deriving DecidableEq

/-- An edge of the memory-graph payload. -/
structure GraphEdge where
  source : String
  target : String
  type : EdgeType
deriving DecidableEq

/-- The `{nodes, links}` payload of `/api/memory/graph`. -/
structure GraphPayload where
  nodes : List GraphNode
  links : List GraphEdge
deriving DecidableEq

/-- The React state of `MemoryView`. -/
structure MVState where
  graphData : GraphPayload
  loading : Bool
  error : Option String
deriving DecidableEq

/-- Outcome of the awaited GET of `/api/memory/graph`. -/
inductive GraphOutcome where
  | ok (data : GraphPayload)
  | err
deriving DecidableEq

/-- The error message set by `fetchGraph` on a rejected fetch. -/
def graphErrorText : String := "Failed to load knowledge graph. Is NornicDB running?"

/-- Result of running `fetchGraph` of `MemoryView` to completion. -/
structure MVStep where
  state : MVState
  requests : List Request
deriving DecidableEq

/-- `fetchGraph` (MemoryView.jsx lines 34-47): issues the GET, then either
replaces `graphData`, or sets only the error message, leaving `graphData`
untouched; `loading` is reset in the finally block. -/
def fetchGraph (s : MVState) (o : GraphOutcome) : MVStep :=
  match o with
  | .ok d => ⟨⟨d, false, none⟩, [.memoryGraph]⟩
  | .err => ⟨⟨s.graphData, false, some graphErrorText⟩, [.memoryGraph]⟩

/-- The Retry button of the error panel (MemoryView.jsx line 153) has
`onClick={fetchGraph}`: retrying runs the very same fetch. -/
def retryClick : MVState → GraphOutcome → MVStep := fetchGraph

/-- Origin kind of a stored `MemoryRecord`. -/
inductive RecordKind where
  | graph
  | vector
deriving DecidableEq

/-- A stored unit of knowledge, per the data model of the spec. -/
structure MemoryRecord where
  id : String
  kind : RecordKind
  name : String
  content_excerpt : String
  origin_query : String
  domain : String
deriving DecidableEq

/-- Modelled from the spec: the node mapping of `get_memory_graph` in
`apps/api/main.py`, which is not among the sources; each record becomes a
`GraphNode` whose `group` is set by the origin store kind. -/
def recordToNode (r : MemoryRecord) : GraphNode :=
  ⟨r.id, r.name, r.content_excerpt, match r.kind with | .graph => 1 | .vector => 2⟩

/-- Modelled from the spec: chain linking, connecting the members of a group
sequentially (record[i] — record[i+1]) instead of pairwise. -/
def chainEdges (t : EdgeType) (ids : List String) : List GraphEdge :=
  (ids.zip ids.tail).map fun p => ⟨p.1, p.2, t⟩

/-- The records sharing one `origin_query`, in stored order. -/
def queryGroup (recs : List MemoryRecord) (q : String) : List MemoryRecord :=
  recs.filter fun r => r.origin_query == q

/-- The records sharing one `domain`, in stored order. -/
def domainGroup (recs : List MemoryRecord) (d : String) : List MemoryRecord :=
  recs.filter fun r => r.domain == d

/-- The same-query chain contributed by the group of one query. -/
def sameQueryChain (recs : List MemoryRecord) (q : String) : List GraphEdge :=
  chainEdges .same_query ((queryGroup recs q).map MemoryRecord.id)

/-- The same-domain chain contributed by the group of one domain. -/
def sameDomainChain (recs : List MemoryRecord) (d : String) : List GraphEdge :=
  chainEdges .same_domain ((domainGroup recs d).map MemoryRecord.id)

/-- Modelled from the spec: `get_memory_graph` / `build_graph` of
`apps/api/main.py` is not among the sources; per section 4.7 of the spec and
`.jules/bolt.md`, the fetched records map to nodes, and the records sharing
an `origin_query` (likewise a `domain`) are linked into a chain, one chain
per distinct key. -/
def build_graph (recs : List MemoryRecord) : GraphPayload :=
  { nodes := recs.map recordToNode,
    links :=
      ((recs.map fun r => r.origin_query).dedup).flatMap (fun q => sameQueryChain recs q)
        ++ ((recs.map fun r => r.domain).dedup).flatMap fun d => sameDomainChain recs d }

/-- A record of the concrete 50-record same-query group. -/
def mkRec50 (i : Nat) : MemoryRecord :=
  ⟨String.mk (List.replicate i ('a')), .graph, "n", "c", "Q", "D"⟩

/-- Fifty records sharing one origin query and one domain. -/
def recs50 : List MemoryRecord := (List.range 50).map mkRec50

/-- Three concrete records, two of them sharing a query and a domain. -/
def c7recs : List MemoryRecord :=
  [⟨"a", .graph, "n1", "c1", "q", "d1"⟩,
   ⟨"b", .vector, "n2", "c2", "q", "d1"⟩,
   ⟨"c", .graph, "n3", "c3", "q2", "d2"⟩]

end LocalAgentMlops

namespace LocalAgentMlops

/-- C1: a file whose type is not application/pdf, or whose size strictly
exceeds 2.5 * 1024 * 1024 bytes, is rejected with a user-visible alert and
no POST to /api/upload is issued (the message list is untouched); otherwise
exactly one POST to /api/upload carrying the file is issued. -/
theorem upload_validation_before_post (msgs : List Msg) (file : FileInput)
    (outcome : UploadOutcome) (t0 t1 : Nat) :
    ((file.type ≠ "application/pdf" ∨ uploadMaxSize < file.size) →
      (handleFileChange msgs file outcome t0 t1).requests = [] ∧
      (handleFileChange msgs file outcome t0 t1).messages = msgs ∧
      (handleFileChange msgs file outcome t0 t1).alerts ≠ []) ∧
    (file.type = "application/pdf" → file.size ≤ uploadMaxSize →
      (handleFileChange msgs file outcome t0 t1).requests = [Request.upload file]) := by
  constructor
  · rintro (h | h)
    · simp [handleFileChange, h]
    · by_cases ht : file.type = "application/pdf"
      · simp [handleFileChange, ht, h]
      · simp [handleFileChange, ht]
  · intro ht hs
    have hns : ¬ uploadMaxSize < file.size := Nat.not_lt.mpr hs
    cases outcome <;> simp [handleFileChange, ht, hns]

/-- Witness for C1 at two concrete files: a 10-byte text file is rejected with
no request, and a 1000-byte PDF produces exactly one upload request. -/
theorem upload_validation_before_post_witness :
    ((handleFileChange [] ⟨"a.txt", "text/plain", 10⟩ (.ok 1) 0 1).requests = [] ∧
     (handleFileChange [] ⟨"a.txt", "text/plain", 10⟩ (.ok 1) 0 1).messages = [] ∧
     (handleFileChange [] ⟨"a.txt", "text/plain", 10⟩ (.ok 1) 0 1).alerts ≠ []) ∧
    (handleFileChange [] ⟨"a.pdf", "application/pdf", 1000⟩ (.ok 1) 0 1).requests
      = [Request.upload ⟨"a.pdf", "application/pdf", 1000⟩] :=
  ⟨(upload_validation_before_post [] ⟨"a.txt", "text/plain", 10⟩ (.ok 1) 0 1).1
      (Or.inl (by decide)),
   (upload_validation_before_post [] ⟨"a.pdf", "application/pdf", 1000⟩ (.ok 1) 0 1).2
      (by decide) (by decide)⟩

/-- C2: a chat turn submitted with web search enabled posts to /api/research
with max_iterations = 1 (whatever the outcome), and on success the assistant
message for that turn renders the answer with the first three sources of the
returned list, in order, hence at most 3 of them. -/
theorem web_chat_single_iteration_three_sources (msgs : List Msg) (input : String)
    (s : SearchSettings) (chatOut : ChatOutcome) (answer : String)
    (sources : List Source) (t t2 : Nat) (hin : isBlank input = false) :
    (∀ wo : ResearchOutcome,
      (handleSend msgs input false true s wo chatOut t t2).requests
        = [Request.research (webChatPayload input s)]) ∧
    (webChatPayload input s).max_iterations = 1 ∧
    (handleSend msgs input false true s (.ok answer sources) chatOut t t2).messages.getLast?
      = some ⟨t + 1, "assistant", MsgContent.rendered answer (sources.take 3), 0⟩ ∧
    (sources.take 3).length ≤ 3 ∧
    (∀ i, i < 3 → (sources.take 3)[i]? = sources[i]?) := by
  refine ⟨fun wo => ?_, rfl, ?_, List.length_take_le 3 sources,
    fun i hi => List.getElem?_take_of_lt hi⟩
  · cases wo <;> simp [handleSend, hin, handleSendWeb]
  · simp [handleSend, hin, handleSendWeb, List.getLast?_append]

/-- Witness for C2: a concrete turn with five returned sources displays
exactly the first three of them. -/
theorem web_chat_single_iteration_three_sources_witness :
    (∀ wo : ResearchOutcome,
      (handleSend [] ("hi") false true initialSettings wo .err 10 11).requests
        = [Request.research (webChatPayload ("hi") initialSettings)]) ∧
    (webChatPayload ("hi") initialSettings).max_iterations = 1 ∧
    (handleSend [] ("hi") false true initialSettings (.ok ("ans") wSources)
        .err 10 11).messages.getLast?
      = some ⟨10 + 1, "assistant", MsgContent.rendered ("ans") (wSources.take 3), 0⟩ ∧
    (wSources.take 3).length ≤ 3 ∧
    (∀ i, i < 3 → (wSources.take 3)[i]? = wSources[i]?) :=
  web_chat_single_iteration_three_sources [] ("hi") initialSettings .err ("ans")
    wSources 10 11 (by decide)

/-- Replacing the content of the messages matching one id leaves every
message's id and role unchanged. -/
theorem map_update_content_id_role (l : List Msg) (tid : Nat) (c : MsgContent) :
    ((l.map fun m => if m.id = tid then { m with content := c } else m).map
        fun m => (m.id, m.role))
      = l.map fun m => (m.id, m.role) := by
  induction l with
  | nil => rfl
  | cons a l ih =>
      simp only [List.map_cons, ih]
      by_cases h : a.id = tid <;> simp [h]

/-- C3: every chat operation other than clear (a memory-mode or web-search
turn, or an upload, with success or error outcome) leaves the history
append-only: the previous messages keep their position, id and role, and any
new messages appear at the end. The upload error handler filters by a fresh
clock reading, so that operation carries the freshness assumption `opFresh`. -/
theorem chat_history_append_only (msgs : List Msg) (op : ChatOp)
    (hfresh : opFresh msgs op = true) :
    ∃ suffix, (applyChatOp msgs op).map (fun m => (m.id, m.role))
      = (msgs.map fun m => (m.id, m.role)) ++ suffix := by
  cases op with
  | send input loading useWeb s wo co t t2 =>
      by_cases hg : (isBlank input || loading) = true
      · exact ⟨[], by simp [applyChatOp, handleSend, hg]⟩
      · cases useWeb with
        | false =>
            cases co with
            | ok message su =>
                refine ⟨[(t, "user"), (t2 + 1, "assistant")], ?_⟩
                simp [applyChatOp, handleSend, hg, handleSendMemory]
            | err =>
                refine ⟨[(t, "user"), (t2 + 1, "assistant")], ?_⟩
                simp [applyChatOp, handleSend, hg, handleSendMemory]
        | true =>
            cases wo with
            | ok answer sources =>
                refine ⟨[(t, "user"), (t + 1, "assistant")], ?_⟩
                simp only [applyChatOp, handleSend, hg, if_false, if_true,
                  Bool.false_eq_true, handleSendWeb, map_update_content_id_role]
                simp
            | err detail =>
                refine ⟨[(t, "user"), (t + 1, "assistant")], ?_⟩
                simp only [applyChatOp, handleSend, hg, if_false, if_true,
                  Bool.false_eq_true, handleSendWeb, map_update_content_id_role]
                simp
  | fileChange file outcome t0 t1 =>
      by_cases ht : file.type = "application/pdf"
      · by_cases hs : uploadMaxSize < file.size
        · exact ⟨[], by simp [applyChatOp, handleFileChange, ht, hs]⟩
        · cases outcome with
          | ok chunks =>
              refine ⟨[(t0, "assistant")], ?_⟩
              simp only [applyChatOp, handleFileChange, ht]
              rw [if_neg (by simp : ¬("application/pdf" ≠ "application/pdf")), if_neg hs,
                map_update_content_id_role]
              simp
          | err detail =>
              have hf := hfresh
              simp only [opFresh, Bool.and_eq_true, List.all_eq_true] at hf
              obtain ⟨h1, h2⟩ := hf
              refine ⟨[(t0, "assistant")], ?_⟩
              simp only [applyChatOp, handleFileChange, ht, hs]
              rw [List.filter_append, List.filter_eq_self.mpr h2]
              simp [h1]
      · exact ⟨[], by simp [applyChatOp, handleFileChange, ht]⟩

/-- Witness for C3: a failed upload over a one-message history with fresh
clock readings keeps the history a prefix of the result. -/
theorem chat_history_append_only_witness :
    opFresh [⟨1, "assistant", .text ("hello"), 0⟩]
        (.fileChange ⟨"a.pdf", "application/pdf", 9⟩ (.err ("boom")) 5 7) = true ∧
    ∃ suffix : List (Nat × String),
      (applyChatOp [⟨1, "assistant", .text ("hello"), 0⟩]
          (.fileChange ⟨"a.pdf", "application/pdf", 9⟩ (.err ("boom")) 5 7)).map
          (fun m => (m.id, m.role))
        = (([⟨1, "assistant", .text ("hello"), 0⟩] : List Msg).map
            fun m => (m.id, m.role)) ++ suffix :=
  ⟨by decide,
   chat_history_append_only [⟨1, "assistant", .text ("hello"), 0⟩]
     (.fileChange ⟨"a.pdf", "application/pdf", 9⟩ (.err ("boom")) 5 7) (by decide)⟩

/-- C4: after a successful POST to /api/chat/clear, the history is exactly
one assistant message carrying the greeting content; no prior message
survives. -/
theorem clear_resets_to_greeting (msgs : List Msg) (t : Nat) :
    (handleClear msgs .ok t).messages
      = [⟨t, "assistant", .text clearGreetingText, 0⟩] ∧
    (handleClear msgs .ok t).messages.length = 1 ∧
    (handleClear msgs .ok t).requests = [Request.chatClear] :=
  ⟨rfl, rfl, rfl⟩

/-- C5 (counterexample to the claimed behavior): choosing the advanced depth
under tavily and then switching the provider to duckduckgo leaves the stale
depth in state while the depth select is disabled; the next research submit
silently carries search_depth advanced together with provider duckduckgo. -/
theorem duckduckgo_advanced_silent_submit :
    depthSelectDisabled (applySettingsEvents initialSettings
        [.setSearchDepth ("advanced"), .setProvider ("duckduckgo")]) = true ∧
    (handleSearch none ("quantum computing")
        (applySettingsEvents initialSettings
          [.setSearchDepth ("advanced"), .setProvider ("duckduckgo")])
        (.ok ("a") [])).requests
      = [Request.research ⟨"quantum computing", 3, "duckduckgo", "advanced", []⟩] := by
  decide

/-- C6: every research submit from the research view posts exactly the
five-field payload with max_iterations 3, and include_domains is the
one-element HIGH_AUTHORITY list exactly when the checkbox is set. -/
theorem research_payload_fields (prev : Option ResearchAnswer) (query : String)
    (s : SearchSettings) (outcome : ResearchOutcome)
    (h : isBlank query = false) :
    (handleSearch prev query s outcome).requests
      = [Request.research
          { query := query, max_iterations := 3, provider := s.provider,
            search_depth := s.search_depth,
            include_domains :=
              if s.highAuthorityOnly then [("HIGH_AUTHORITY" : String)] else [] }] := by
  cases outcome <;> simp [handleSearch, h, researchViewPayload, includeDomains]

/-- Witness for C6 at a concrete submit with the checkbox set. -/
theorem research_payload_fields_witness :
    (handleSearch none ("ai") ⟨"tavily", "basic", true⟩ (.ok ("a") [])).requests
      = [Request.research
          { query := "ai", max_iterations := 3, provider := "tavily",
            search_depth := "basic",
            include_domains := [("HIGH_AUTHORITY" : String)] }] :=
  research_payload_fields none ("ai") ⟨"tavily", "basic", true⟩ (.ok ("a") [])
    (by decide)

/-- C8: when the HTTP call rejects, the research view clears the result and
raises an error toast, so no sources are rendered; a web-search chat turn
ends with a plain error message and a memory-mode chat turn appends a plain
error message, both displaying no sources. -/
theorem failed_turns_show_error_no_sources (prev : Option ResearchAnswer)
    (query : String) (s : SearchSettings) (detail : Option String)
    (msgs : List Msg) (input : String) (t t2 : Nat)
    (h : isBlank query = false) :
    (renderedSources (handleSearch prev query s (.err detail)).result = [] ∧
     (handleSearch prev query s (.err detail)).toasts.map ToastMsg.kind
        = [ToastKind.error]) ∧
    ((handleSendWeb msgs input s (.err detail) t).messages.getLast?
        = some ⟨t + 1, "assistant", .text searchErrorText, 0⟩ ∧
     displayedSources (MsgContent.text searchErrorText) = []) ∧
    ((handleSendMemory msgs input .err t t2).messages.getLast?
        = some ⟨t2 + 1, "assistant", .text chatErrorText, 0⟩ ∧
     displayedSources (MsgContent.text chatErrorText) = []) := by
  refine ⟨⟨?_, ?_⟩, ⟨?_, rfl⟩, ⟨?_, rfl⟩⟩
  · simp [handleSearch, h, renderedSources]
  · simp [handleSearch, h]
  · simp [handleSendWeb, List.getLast?_append]
  · simp [handleSendMemory, List.getLast?_append]

/-- Witness for C8 at a concrete rejected call. -/
theorem failed_turns_show_error_no_sources_witness :
    (renderedSources (handleSearch none ("ai") initialSettings
        (.err (some ("down")))).result = [] ∧
     (handleSearch none ("ai") initialSettings (.err (some ("down")))).toasts.map
        ToastMsg.kind = [ToastKind.error]) ∧
    ((handleSendWeb [] ("hi") initialSettings (.err (some ("down"))) 10).messages.getLast?
        = some ⟨10 + 1, "assistant", .text searchErrorText, 0⟩ ∧
     displayedSources (MsgContent.text searchErrorText) = []) ∧
    ((handleSendMemory [] ("hi") .err 10 20).messages.getLast?
        = some ⟨20 + 1, "assistant", .text chatErrorText, 0⟩ ∧
     displayedSources (MsgContent.text chatErrorText) = []) :=
  failed_turns_show_error_no_sources none ("ai") initialSettings (some ("down"))
    [] ("hi") 10 20 (by decide)

/-- C9: when the upload fails and the catch handler's fresh Date.now() reading
differs from the placeholder id and from every existing message id, the
cleanup filter removes nothing: the Ingesting placeholder survives with its
original content and is never updated to an error state. -/
theorem upload_error_placeholder_remains (msgs : List Msg) (file : FileInput)
    (detail : String) (t0 t1 : Nat) (htype : file.type = "application/pdf")
    (hsize : file.size ≤ uploadMaxSize) (hlater : t0 < t1)
    (hfresh : ∀ m ∈ msgs, m.id ≠ t1) :
    (handleFileChange msgs file (.err detail) t0 t1).messages
      = msgs ++ [⟨t0, "assistant", ingestingContent file.name, 0⟩] := by
  have hns : ¬ uploadMaxSize < file.size := Nat.not_lt.mpr hsize
  simp only [handleFileChange, htype]
  rw [if_neg (by simp : ¬("application/pdf" ≠ "application/pdf")), if_neg hns]
  rw [List.filter_append,
    List.filter_eq_self.mpr (fun m hm => by simpa using hfresh m hm)]
  simp [Nat.ne_of_lt hlater]

/-- Witness for C9: a concrete failed upload over a one-message history. -/
theorem upload_error_placeholder_remains_witness :
    (handleFileChange [⟨1, "assistant", .text ("hello"), 0⟩]
        ⟨"a.pdf", "application/pdf", 9⟩ (.err ("boom")) 5 7).messages
      = [⟨1, "assistant", .text ("hello"), 0⟩]
          ++ [⟨5, "assistant", ingestingContent ("a.pdf"), 0⟩] :=
  upload_error_placeholder_remains [⟨1, "assistant", .text ("hello"), 0⟩]
    ⟨"a.pdf", "application/pdf", 9⟩ ("boom") 5 7 (by decide) (by decide)
    (by decide) (by decide)

/-- C10: a failed fetch of /api/memory/graph leaves the displayed graph data
untouched, setting only the error message and the loading flag; every fetch,
including the Retry button which is the same function, issues the same GET. -/
theorem memory_graph_error_preserves_data (s : MVState) (o : GraphOutcome) :
    (fetchGraph s .err).state.graphData = s.graphData ∧
    (fetchGraph s .err).state.error = some graphErrorText ∧
    (fetchGraph s .err).state.loading = false ∧
    (fetchGraph s o).requests = [Request.memoryGraph] ∧
    retryClick = fetchGraph := by
  refine ⟨rfl, rfl, rfl, ?_, rfl⟩
  cases o <;> rfl

/-- A chain over n ids has exactly n - 1 edges. -/
theorem chainEdges_length (t : EdgeType) (ids : List String) :
    (chainEdges t ids).length = ids.length - 1 := by
  simp only [chainEdges, List.length_map, List.length_zip, List.length_tail]
  exact Nat.min_eq_right (Nat.sub_le _ _)

/-- Both endpoints of a chain edge are among the chained ids. -/
theorem chainEdges_endpoints (t : EdgeType) (ids : List String) (e : GraphEdge)
    (he : e ∈ chainEdges t ids) : e.source ∈ ids ∧ e.target ∈ ids := by
  obtain ⟨⟨a, b⟩, hab, rfl⟩ := List.mem_map.mp he
  have h := List.of_mem_zip hab
  exact ⟨h.1, List.mem_of_mem_tail h.2⟩

/-- C7 (spec-modelled): in the memory graph, each group of records sharing an
origin query (likewise a domain) contributes a chain of group-size minus one
edges — in particular the concrete 50-record same-query group contributes 49
edges, not 1225 — and every edge endpoint is a node id of the same payload. -/
theorem build_graph_chain_bound (recs : List MemoryRecord) (q d : String)
    (e : GraphEdge) (he : e ∈ (build_graph recs).links) :
    (sameQueryChain recs q).length = (queryGroup recs q).length - 1 ∧
    (sameDomainChain recs d).length = (domainGroup recs d).length - 1 ∧
    (sameQueryChain recs50 ("Q")).length = 49 ∧
    e.source ∈ (build_graph recs).nodes.map GraphNode.id ∧
    e.target ∈ (build_graph recs).nodes.map GraphNode.id := by
  have hids : (build_graph recs).nodes.map GraphNode.id = recs.map MemoryRecord.id := by
    simp [build_graph, recordToNode, List.map_map, Function.comp]
  have hend : e.source ∈ recs.map MemoryRecord.id ∧
      e.target ∈ recs.map MemoryRecord.id := by
    simp only [build_graph, List.mem_append, List.mem_flatMap] at he
    rcases he with ⟨qk, hq, hmem⟩ | ⟨dk, hd, hmem⟩
    · have h := chainEdges_endpoints _ _ _ hmem
      exact ⟨List.map_subset _ (List.filter_subset' _) h.1,
             List.map_subset _ (List.filter_subset' _) h.2⟩
    · have h := chainEdges_endpoints _ _ _ hmem
      exact ⟨List.map_subset _ (List.filter_subset' _) h.1,
             List.map_subset _ (List.filter_subset' _) h.2⟩
  have h50 : (sameQueryChain recs50 ("Q")).length = 49 := by
    rw [sameQueryChain, chainEdges_length, List.length_map]
    have hall : queryGroup recs50 ("Q") = recs50 := by
      refine List.filter_eq_self.mpr ?_
      intro r hr
      obtain ⟨i, hi, rfl⟩ := List.mem_map.mp hr
      rfl
    rw [hall]
    simp [recs50]
  refine ⟨?_, ?_, h50, by rw [hids] at *; exact hend.1, by rw [hids] at *; exact hend.2⟩
  · rw [sameQueryChain, chainEdges_length, List.length_map]
  · rw [sameDomainChain, chainEdges_length, List.length_map]

/-- Witness for C7: a concrete edge of a concrete three-record payload. -/
theorem build_graph_chain_bound_witness :
    ((⟨"a", "b", EdgeType.same_query⟩ : GraphEdge) ∈ (build_graph c7recs).links) ∧
    ((sameQueryChain c7recs ("q")).length = (queryGroup c7recs ("q")).length - 1 ∧
     (sameDomainChain c7recs ("d1")).length = (domainGroup c7recs ("d1")).length - 1 ∧
     (sameQueryChain recs50 ("Q")).length = 49 ∧
     (⟨"a", "b", EdgeType.same_query⟩ : GraphEdge).source
        ∈ (build_graph c7recs).nodes.map GraphNode.id ∧
     (⟨"a", "b", EdgeType.same_query⟩ : GraphEdge).target
        ∈ (build_graph c7recs).nodes.map GraphNode.id) :=
  ⟨by decide,
   build_graph_chain_bound c7recs ("q") ("d1") ⟨"a", "b", .same_query⟩ (by decide)⟩

end LocalAgentMlops
